import Mathlib

set_option maxRecDepth 8000

/-!
# TradingStar 3 Launcher — verification of the specification against the code

Shallow embedding of the supervisor/logging core of the launcher
(`src/main.rs`, with the auxiliary modules `src/settings.rs`,
`src/process.rs`, `src/ui.rs`), together with theorems settling the
spec claims.

Conventions:
* Rust `VecDeque` becomes `List` (front = head, `pop_front` = `tail`,
  `push_back` = `· ++ [x]`).
* iced `Color` values produced by `Color::from_rgb8` are embedded as their
  8-bit channel triples (no floating point is involved in any claim).
* The iced `update` method becomes a pure function
  `Launcher → Message → Launcher × List LauncherCommand`, where the
  command list records the side effects (`Command::perform(kill_process ..)`,
  `window::close`, `Command::perform(save_settings ..)`, file picking)
  that the Rust code batches.
-/

namespace TradingStar

/-- An RGB color as produced by iced's `Color::from_rgb8` in `main.rs`
(channel bytes; `Color::WHITE` = (255,255,255), `Color::BLACK` = (0,0,0)). -/
structure IcedColor where
  r : Nat
  g : Nat
  b : Nat
deriving DecidableEq, Repr

/-- `Color::WHITE`. -/
def colorWhite : IcedColor := ⟨0xFF, 0xFF, 0xFF⟩

/-- `Color::BLACK`. -/
def colorBlack : IcedColor := ⟨0x00, 0x00, 0x00⟩

/-- `ansi_to_iced_color` from `src/main.rs` (the compiled copy of the
color table; the unused module `src/ui.rs` carries a variant table with
different byte values but the same 16-entry shape). -/
def ansi_to_iced_color (code : Nat) : IcedColor :=
  match code with
  | 30 => colorBlack
  | 31 => ⟨0xCD, 0x5C, 0x5C⟩
  | 32 => ⟨0x90, 0xEE, 0x90⟩
  | 33 => ⟨0xFF, 0xD7, 0x00⟩
  | 34 => ⟨0x46, 0x82, 0xB4⟩
  | 35 => ⟨0xBA, 0x55, 0xD3⟩
  | 36 => ⟨0x40, 0xE0, 0xD0⟩
  | 37 => ⟨0xD3, 0xD3, 0xD3⟩
  | 90 => ⟨0x80, 0x80, 0x80⟩
  | 91 => ⟨0xFF, 0x00, 0x00⟩
  | 92 => ⟨0x00, 0xFF, 0x00⟩
  | 93 => ⟨0xFF, 0xFF, 0x00⟩
  | 94 => ⟨0x00, 0x00, 0xFF⟩
  | 95 => ⟨0xFF, 0x00, 0xFF⟩
  | 96 => ⟨0x00, 0xFF, 0xFF⟩
  | 97 => colorWhite
  | 0 => colorWhite
  | 39 => colorWhite
  | 49 => colorWhite
  | _ => colorWhite

/-- `AnsiSegment` from `src/main.rs`: a run of text with an optional color
(`None` = default terminal color). -/
structure AnsiSegment where
  text : String
  color : Option IcedColor
deriving DecidableEq, Repr

/-- One block produced by the `ansi_parser` crate's `ansi_parse` iterator, as
consumed by `Launcher::add_log`: either a plain text block, an
`AnsiSequence::SetGraphicsMode` escape with its numeric parameters, or any
other escape sequence (which `add_log` ignores). -/
inductive AnsiBlock where
  | textBlock (t : String)
  | sgr (codes : List Nat)
  | otherEscape
deriving DecidableEq, Repr

/-- The accumulator of `add_log`'s scanning loop:
(`segments`, `current_color`, `current_text`). -/
abbrev ParseAcc := List AnsiSegment × Option IcedColor × String

/-- Flush of the pending text buffer inside `add_log`:
`if !current_text.is_empty() { segments.push(AnsiSegment { .. }) }` with
`std::mem::take(&mut current_text)`. -/
def flushText (acc : ParseAcc) : ParseAcc :=
  if acc.2.2 = "" then acc else (acc.1 ++ [⟨acc.2.2, acc.2.1⟩], acc.2.1, "")

/-- Handling of one numeric SGR parameter in `add_log`'s inner
`for code in codes` loop (`src/main.rs`): codes 0 and 39 flush and reset the
color, 30–37 and 90–97 flush and set the mapped palette color, everything
else is ignored. -/
def applyCode (acc : ParseAcc) (code : Nat) : ParseAcc :=
  if code = 0 then
    let acc := flushText acc
    (acc.1, none, acc.2.2)
  else if (30 ≤ code ∧ code ≤ 37) ∨ (90 ≤ code ∧ code ≤ 97) then
    let acc := flushText acc
    (acc.1, some (ansi_to_iced_color code), acc.2.2)
  else if code = 39 then
    let acc := flushText acc
    (acc.1, none, acc.2.2)
  else
    acc

/-- Handling of one `ansi_parse` output block in `add_log` (`src/main.rs`):
text accumulates; an SGR escape with an empty parameter list flushes and
resets the color; an SGR escape with parameters folds `applyCode`; other
escapes are ignored. -/
def stepBlock (acc : ParseAcc) (b : AnsiBlock) : ParseAcc :=
  match b with
  | .textBlock t => (acc.1, acc.2.1, acc.2.2 ++ t)
  | .sgr codes =>
      if codes = [] then
        let acc := flushText acc
        (acc.1, none, acc.2.2)
      else
        codes.foldl applyCode acc
  | .otherEscape => acc

/-- The segment-producing part of `Launcher::add_log` (`src/main.rs`): fold
the blocks, flush the final pending text, then
`segments.retain(|seg| !seg.text.is_empty())`. -/
def processBlocks (blocks : List AnsiBlock) : List AnsiSegment :=
  let acc := blocks.foldl stepBlock ([], none, "")
  let acc := flushText acc
  acc.1.filter (fun seg => !(seg.text == ""))

/-- Numeric value of a digit string (the `ansi_parser` crate's reading of an
SGR parameter). -/
def digitsToNat (ds : List Char) : Nat :=
  ds.foldl (fun n c => 10 * n + (c.toNat - ('0').toNat)) 0

/-- Modelled from the spec: the tokenizer of the external `ansi_parser`
crate (a dependency, not part of this repository), restricted to the SGR
family `ESC [ p1 ; p2 ; … m` that the spec's ColorSequenceParser interprets
(§4.1, glossary "SGR"). Reads the parameter bytes after `ESC [`: returns the
parameter list and the rest of the input on a well-formed SGR sequence,
`none` otherwise. -/
def readSgrBody : List Char → List Char → List Nat → Option (List Nat × List Char)
  | [], _, _ => none
  | c :: rest, digits, codes =>
    if c.isDigit then
      readSgrBody rest (digits ++ [c]) codes
    else if c = ';' then
      readSgrBody rest [] (codes ++ [digitsToNat digits])
    else if c = 'm' then
      if digits = [] ∧ codes = [] then
        some ([], rest)
      else
        some (codes ++ [digitsToNat digits], rest)
    else
      none

/-- Turn a pending run of plain characters into a `textBlock` (empty runs
produce no block). -/
def flushChars (pend : List Char) : List AnsiBlock :=
  if pend = [] then [] else [.textBlock (String.mk pend)]

/-- Modelled from the spec: fuel-driven scanning loop of the `ansi_parser`
crate's tokenizer (external dependency). Each step consumes at least one
character, so `fuel = input length + 1` always suffices; the fuel-exhausted
branch is unreachable for such fuel and merely flushes the pending text. -/
def tokenizeAux : Nat → List Char → List Char → List AnsiBlock
  | 0, pend, _ => flushChars pend
  | _ + 1, pend, [] => flushChars pend
  | fuel + 1, pend, c :: rest =>
    if c = (Char.ofNat 27) then
      match rest with
      | '[' :: rest2 =>
        match readSgrBody rest2 [] [] with
        | some (codes, rest3) =>
            flushChars pend ++ .sgr codes :: tokenizeAux fuel [] rest3
        | none =>
            flushChars pend ++ .otherEscape :: tokenizeAux fuel [] rest2
      | _ =>
            flushChars pend ++ .otherEscape :: tokenizeAux fuel [] rest
    else
      tokenizeAux fuel (pend ++ [c]) rest

/-- Modelled from the spec: `message.ansi_parse()` of the external
`ansi_parser` crate — split a line into text blocks and escape-sequence
blocks. -/
def ansiParse (message : String) : List AnsiBlock :=
  tokenizeAux (message.length + 1) [] message.data

/-- The full color-sequence parser of one log line: `ansi_parse` followed by
`add_log`'s scanning loop (`src/main.rs`). -/
def parseLine (message : String) : List AnsiSegment :=
  processBlocks (ansiParse message)

/-- `MAX_LOG_LINES` from `src/main.rs`. -/
def MAX_LOG_LINES : Nat := 500

/-- The buffer-maintenance tail of `Launcher::add_log` (`src/main.rs` lines
737–743): evict from the front whenever the buffer is at (or beyond)
capacity, then append the parsed segments if they are non-empty. Note the
eviction happens before — and regardless of — the non-emptiness check. -/
def addLogSegments (logs : List (List AnsiSegment)) (segments : List AnsiSegment) :
    List (List AnsiSegment) :=
  let logs := if MAX_LOG_LINES ≤ logs.length then logs.tail else logs
  if segments = [] then logs else logs ++ [segments]

/-- `Launcher::add_log` (`src/main.rs`): parse the message, then maintain
the bounded buffer. -/
def addLog (logs : List (List AnsiSegment)) (message : String) :
    List (List AnsiSegment) :=
  addLogSegments logs (parseLine message)

example : parseLine ("\x1b[31mERROR\x1b[0m: failed") =
    [⟨"ERROR", some ⟨0xCD, 0x5C, 0x5C⟩⟩, ⟨": failed", none⟩] := by decide

example : parseLine ("\x1b[31m") = [] := by decide

example : parseLine ("abc") = [⟨"abc", none⟩] := by decide

/-- `AppSettings` from `src/settings.rs` (lines 9–24): executable path,
API key, and the persisted `last_pid`. The compiled copy of this struct in
`src/main.rs` (lines 34–47) omits `last_pid`; no code in the repository ever
reads or writes `last_pid`. Paths are embedded as strings. -/
structure AppSettings where
  executable_path : Option String
  api_key : String
  last_pid : Option Nat
deriving DecidableEq, Repr

/-- `AppSettings::default()`. -/
def defaultSettings : AppSettings := ⟨none, "", none⟩

/-- The mutable application state of `struct Launcher` (`src/main.rs`).
The `config_path` field (pure I/O plumbing for the settings file location)
is not modelled; `logs` is the `VecDeque<Vec<AnsiSegment>>` with the front
at the head. -/
structure Launcher where
  settings : AppSettings
  is_running : Bool
  logs : List (List AnsiSegment)
  show_settings : Bool
  subscription_id_counter : Nat
  subscription_id : Option Nat
  actual_pid : Option Nat
  close_requested : Bool
deriving DecidableEq, Repr

/-- The window event delivered inside `Message::EventOccurred`, reduced to
what `update` inspects: a `window::Event::CloseRequested` for some window
(with the flag telling whether that window is `window::Id::MAIN`), or any
other event (ignored by `update`). -/
inductive IcedEvent where
  | closeRequested (isMainWindow : Bool)
  | other
deriving DecidableEq, Repr

/-- `enum Message` from `src/main.rs`. `Result<T, String>` becomes
`Except String T`. -/
inductive Message where
  | SettingsButtonPressed
  | StartButtonPressed
  | StopButtonPressed
  | SelectExecutablePath
  | ApiKeyChanged (key : String)
  | CloseSettingsPressed
  | ExecutablePathSelected (res : Except String (Option String))
  | SettingsLoaded (res : Except String AppSettings)
  | SettingsSaved (res : Except String Unit)
  | ProcessActualPid (pid : Nat)
  | ProcessOutput (line : String)
  | ProcessTerminated (code : Int)
  | ProcessError (msg : String)
  | ProcessKillResult (res : Except String Unit)
  | EventOccurred (ev : IcedEvent)

/-- The side-effecting commands `Launcher::update` batches and returns:
`Command::perform(kill_process(pid), ..)`, `window::close(MAIN)`,
`Command::perform(save_settings(.., settings), ..)` and
`Command::perform(select_executable_file(), ..)`. -/
inductive LauncherCommand where
  | killProcess (pid : Nat)
  | closeWindow
  | saveSettings (s : AppSettings)
  | pickExecutableFile
deriving DecidableEq, Repr

/-- The state built by `Launcher::new` (`src/main.rs`): default settings,
not running, empty log, settings panel hidden, counter 0, no subscription,
no PID, no close request.  (`new` additionally issues the one-time
`load_settings` command, whose outcome arrives as `SettingsLoaded`.) -/
def initState : Launcher :=
  { settings := defaultSettings
    is_running := false
    logs := []
    show_settings := false
    subscription_id_counter := 0
    subscription_id := none
    actual_pid := none
    close_requested := false }

/-- `Launcher::update` (`src/main.rs` lines 437–617) as a pure transition
function: the next state together with the list of batched commands.
Every `self.add_log(..)` call is embedded with the literal string the Rust
code formats (the window id interpolated into the non-main close-request
log line is elided). -/
def update (s : Launcher) (m : Message) : Launcher × List LauncherCommand :=
  match m with
  | .SettingsLoaded (.ok loaded) =>
      ({ s with settings := loaded }, [])
  | .SettingsLoaded (.error e) =>
      ({ s with
          logs := addLog s.logs ("Ошибка загрузки настроек: " ++ e)
          settings := defaultSettings }, [])
  | .SettingsButtonPressed =>
      ({ s with show_settings := true }, [])
  | .CloseSettingsPressed =>
      ({ s with show_settings := false }, [])
  | .StartButtonPressed =>
      if s.is_running then
        (s, [])
      else if s.settings.executable_path.isSome && !(s.settings.api_key == "") then
        ({ s with
            logs := addLog [] ("Запуск процесса через подписку...")
            is_running := true
            subscription_id_counter := s.subscription_id_counter + 1
            subscription_id := some s.subscription_id_counter
            actual_pid := none }, [])
      else
        ({ s with logs := addLog s.logs ("Ошибка: Проверьте путь и ключ API.") }, [])
  | .StopButtonPressed =>
      match s.actual_pid with
      | some pid =>
          ({ s with
              logs := addLog s.logs ("Остановка процесса (PID: " ++ toString pid ++ ")...")
              is_running := false
              subscription_id := none
              actual_pid := none },
            [.killProcess pid])
      | none =>
          ({ s with
              logs := addLog s.logs ("Процесс не запущен или PID неизвестен.")
              is_running := false
              subscription_id := none }, [])
  | .ProcessActualPid pid =>
      ({ s with
          logs := addLog s.logs ("Процесс успешно запущен (PID: " ++ toString pid ++ ").")
          actual_pid := some pid }, [])
  | .ProcessOutput line =>
      ({ s with logs := addLog s.logs line }, [])
  | .ProcessTerminated code =>
      ({ s with
          logs := addLog s.logs ("Процесс завершился (код: " ++ toString code ++ ").")
          is_running := false
          subscription_id := none
          actual_pid := none },
        if s.close_requested then [.closeWindow] else [])
  | .ProcessError msg =>
      ({ s with
          logs := addLog s.logs msg
          is_running := false
          subscription_id := none
          actual_pid := none },
        if s.close_requested then [.closeWindow] else [])
  | .ProcessKillResult res =>
      ({ s with
          logs := addLog s.logs
            (match res with
              | .ok _ => "Команда остановки процесса отправлена."
              | .error e => "Ошибка отправки команды остановки: " ++ e)
          is_running := false
          subscription_id := none
          actual_pid := none },
        if s.close_requested then [.closeWindow] else [])
  | .SelectExecutablePath =>
      (s, [.pickExecutableFile])
  | .ExecutablePathSelected (.ok (some path)) =>
      let settings := { s.settings with executable_path := some path }
      ({ s with
          settings := settings
          logs := addLog s.logs ("Выбран путь: \x22" ++ path ++ "\x22") },
        [.saveSettings settings])
  | .ExecutablePathSelected (.ok none) =>
      ({ s with logs := addLog s.logs ("Выбор файла отменен.") }, [])
  | .ExecutablePathSelected (.error e) =>
      ({ s with logs := addLog s.logs ("Ошибка выбора файла: " ++ e) }, [])
  | .ApiKeyChanged key =>
      let settings := { s.settings with api_key := key }
      ({ s with settings := settings }, [.saveSettings settings])
  | .SettingsSaved (.ok _) =>
      (s, [])
  | .SettingsSaved (.error e) =>
      ({ s with logs := addLog s.logs ("Ошибка сохранения настроек: " ++ e) }, [])
  | .EventOccurred ev =>
      match ev with
      | .closeRequested true =>
          let s := { s with
            logs := addLog s.logs ("Получен запрос на закрытие окна...")
            close_requested := true }
          if s.is_running then
            match s.actual_pid with
            | some pid =>
                ({ s with
                    logs := addLog s.logs
                      ("Инициирована остановка процесса (PID: " ++ toString pid
                        ++ ") перед закрытием.") },
                  [.killProcess pid])
            | none =>
                ({ s with
                    logs := addLog s.logs
                      ("Процесс был запущен, но PID не найден. Закрытие окна.")
                    is_running := false
                    subscription_id := none },
                  [.closeWindow])
          else
            ({ s with logs := addLog s.logs ("Процесс не запущен. Закрытие окна.") },
              [.closeWindow])
      | .closeRequested false =>
          ({ s with logs := addLog s.logs ("Запрос на закрытие для окна, игнорируется.") }, [])
      | .other => (s, [])

/-- Which messages the iced runtime can actually deliver in a given state:
the four messages produced by the `ProcessListener` subscription stream
(`ProcessActualPid`, `ProcessOutput`, `ProcessTerminated`, `ProcessError`)
exist only while `Launcher::subscription` keeps the recipe alive, which
requires `is_running` and a set `subscription_id` (`src/main.rs` lines
619–645).  All other messages (UI intents, settings I/O results, the
`ProcessKillResult` of a one-shot `Command::perform`, window events) can
arrive at any time. -/
def Deliverable (s : Launcher) (m : Message) : Prop :=
  match m with
  | .ProcessActualPid _ => s.is_running = true ∧ s.subscription_id.isSome = true
  | .ProcessOutput _ => s.is_running = true ∧ s.subscription_id.isSome = true
  | .ProcessTerminated _ => s.is_running = true ∧ s.subscription_id.isSome = true
  | .ProcessError _ => s.is_running = true ∧ s.subscription_id.isSome = true
  | _ => True

/-- Reachability of launcher states: the initial state, closed under
processing any deliverable message. -/
inductive Reachable : Launcher → Prop where
  | init : Reachable initState
  | step {s : Launcher} {m : Message} :
      Reachable s → Deliverable s m → Reachable (update s m).1

/-- The data `kill_process` extracts from a finished `kill`/`taskkill`
command (`output.status.success()`, the displayed status, captured stdout
and stderr). -/
structure CmdOutput where
  success : Bool
  statusText : String
  stdout : String
  stderr : String
deriving DecidableEq, Repr

/-- Outcome of `TokioCommand::output().await`: the command ran and finished
(`.ok`), or could not be executed at all (`.error`). -/
abbrev CmdResult := Except String CmdOutput

/-- `String::to_lowercase` on the captured stdout, as a character list. -/
def lowerChars (s : String) : List Char := s.data.map Char.toLower

/-- Whether the second list is an initial run of the first
(`str::starts_with` on character lists). -/
def charsStartWith : List Char → List Char → Bool
  | _, [] => true
  | [], _ :: _ => false
  | h :: hs, n :: ns => h == n && charsStartWith hs ns

/-- Whether the second list occurs contiguously inside the first
(`str::contains` on character lists). -/
def charsContain : List Char → List Char → Bool
  | [], needle => needle.isEmpty
  | c :: hs, needle => charsStartWith (c :: hs) needle || charsContain hs needle

/-- The `#[cfg(unix)]` branch of `kill_process` (`src/main.rs` lines
147–190, identical in `src/process.rs`): run `kill <pid>`; `Ok(())` exactly
when the command executed and its exit status was success, otherwise an
error string carrying the status and stderr. -/
def kill_process_unix (pid : Nat) (cmdResult : CmdResult) : Except String Unit :=
  match cmdResult with
  | .ok output =>
      if output.success then
        .ok ()
      else
        .error ("Команда kill для PID " ++ toString pid ++ " завершилась с кодом: "
          ++ output.statusText ++ ". Stderr: " ++ output.stderr)
  | .error e =>
      .error ("Ошибка выполнения команды kill для PID " ++ toString pid ++ ": " ++ e)

/-- The `#[cfg(windows)]` branch of `kill_process` (`src/main.rs` lines
192–252): run `taskkill /F /PID <pid>`; on a successful exit status the
stdout is checked for a confirmation, but both the confirmed and the
unconfirmed case return `Ok(())`; a failing exit status or a failure to run
the command is an error. -/
def kill_process_windows (pid : Nat) (cmdResult : CmdResult) : Except String Unit :=
  match cmdResult with
  | .ok output =>
      if output.success then
        if charsContain (lowerChars output.stdout)
              (String.data ("pid " ++ toString pid ++ " "))
            || charsContain (lowerChars output.stdout) (String.data ("success")) then
          .ok ()
        else
          .ok ()
      else
        .error ("Команда taskkill для PID " ++ toString pid ++ " завершилась с кодом: "
          ++ output.statusText ++ ". Stderr: " ++ output.stderr)
  | .error e =>
      .error ("Ошибка выполнения команды taskkill для PID " ++ toString pid ++ ": " ++ e)

/-- Whether an `Except`-valued kill attempt reported success. -/
def exceptIsOk : Except String Unit → Bool
  | .ok _ => true
  | .error _ => false

/-- Whether a launcher command is a settings write
(`Command::perform(save_settings .., Message::SettingsSaved)`). -/
def isSaveCmd : LauncherCommand → Bool
  | .saveSettings _ => true
  | _ => false

/-- Modelled from the spec: the observable outcome of `kill <pid>` against a
PID whose process has already exited — POSIX kill(1) cannot find the target,
exits with a nonzero status and prints a "No such process" diagnostic
(spec §4.3 "target not found (process already gone)"). -/
def staleKillOutcomeUnix : CmdResult :=
  .ok ⟨false, "exit status: 1", "", "kill: (4242) - No such process"⟩

/-- Modelled from the spec: the observable outcome of
`taskkill /F /PID <pid>` against a PID whose process has already exited —
taskkill reports "not found" on stderr and exits with a nonzero status
(spec §4.3, §6 "OS termination command"). -/
def staleKillOutcomeWindows : CmdResult :=
  .ok ⟨false, "exit code: 128", "", "ERROR: The process \x224242\x22 not found."⟩

/-- A settings record as loaded from disk at startup: a configured
executable path and API key together with a stale persisted PID 4242
(the scenario of spec §8). -/
def loadedSettings : AppSettings :=
  ⟨some ("/opt/tradingstar/bot"), "SECRET", some 4242⟩

/-- The launcher right after startup settings loading delivered
`loadedSettings`. -/
def stateAfterLoad : Launcher :=
  (update initState (.SettingsLoaded (.ok loadedSettings))).1

/-- The launcher right after the Start intent: subscription allocated,
spawn in flight, PID not yet observed (the spec's Launching phase). -/
def stateAfterStart : Launcher :=
  (update stateAfterLoad .StartButtonPressed).1

/-- The launcher once the spawned child's PID 900 has been observed
(the spec's Running phase). -/
def stateAfterPid : Launcher :=
  (update stateAfterStart (.ProcessActualPid 900)).1

/-- A log buffer filled to capacity with 500 one-segment lines. -/
def sampleFullBuffer : List (List AnsiSegment) := List.replicate 500 [⟨"x", none⟩]

/- ------------------------------------------------------------------
   Theorems
   ------------------------------------------------------------------ -/

/-- Appending one (parsed) line keeps the buffer within capacity. -/
theorem addLogSegments_length_le (logs : List (List AnsiSegment)) (segs : List AnsiSegment)
    (h : logs.length ≤ 500) : (addLogSegments logs segs).length ≤ 500 := by
  simp only [addLogSegments, MAX_LOG_LINES]
  split
  · split
    · simp only [List.length_tail]
      omega
    · exact h
  · split
    · simp only [List.length_append, List.length_tail, List.length_cons,
        List.length_nil]
      omega
    · simp only [List.length_append, List.length_cons, List.length_nil]
      omega

/-- Any sequence of buffer appends starting within capacity stays within
capacity. -/
theorem foldl_addLogSegments_length (ls : List (List AnsiSegment)) :
    ∀ b : List (List AnsiSegment), b.length ≤ 500 →
      (ls.foldl addLogSegments b).length ≤ 500 := by
  induction ls with
  | nil => intro b hb; simpa using hb
  | cons p rest ih =>
      intro b hb
      simpa using ih _ (addLogSegments_length_le b p hb)

/-- One non-empty append followed by further material is, up to the
500-window drop, the same as consing the line behind the buffer. -/
theorem addLogSegments_drop_eq (b : List (List AnsiSegment)) (p : List AnsiSegment)
    (L : List (List AnsiSegment)) (hp : p ≠ []) (hb : b.length ≤ 500) :
    (addLogSegments b p ++ L).drop ((addLogSegments b p ++ L).length - 500)
      = (b ++ p :: L).drop ((b ++ p :: L).length - 500) := by
  by_cases h5 : (500 : Nat) ≤ b.length
  · have hb5 : b.length = 500 := le_antisymm hb h5
    obtain ⟨hd, tl, rfl⟩ : ∃ hd tl, b = hd :: tl := by
      cases b with
      | nil => simp at hb5
      | cons hd tl => exact ⟨hd, tl, rfl⟩
    have htl : tl.length = 499 := by
      simp only [List.length_cons] at hb5
      omega
    have e1 : addLogSegments (hd :: tl) p = tl ++ [p] := by
      simp [addLogSegments, MAX_LOG_LINES, h5, hp, htl]
    rw [e1]
    have e2 : (tl ++ [p]) ++ L = tl ++ p :: L := by
      rw [List.append_assoc, List.singleton_append]
    have e3 : (hd :: tl) ++ p :: L = hd :: (tl ++ p :: L) := by simp
    rw [e2, e3]
    have e4 : (tl ++ p :: L).length - 500 = L.length := by
      simp only [List.length_append, List.length_cons]
      omega
    have e5 : (hd :: (tl ++ p :: L)).length - 500 = L.length + 1 := by
      simp only [List.length_cons, List.length_append]
      omega
    rw [e4, e5, List.drop_succ_cons]
  · have e1 : addLogSegments b p = b ++ [p] := by
      simp [addLogSegments, MAX_LOG_LINES, h5, hp]
    rw [e1, List.append_assoc, List.singleton_append]

/-- Folding non-empty appends over a buffer within capacity yields exactly
the trailing 500-window of buffer-then-lines. -/
theorem foldl_addLogSegments_eq (ls : List (List AnsiSegment)) :
    ∀ b : List (List AnsiSegment), (∀ l ∈ ls, l ≠ []) → b.length ≤ 500 →
      ls.foldl addLogSegments b = (b ++ ls).drop ((b ++ ls).length - 500) := by
  induction ls with
  | nil =>
      intro b _ hb
      rw [List.foldl_nil, List.append_nil, Nat.sub_eq_zero_of_le hb, List.drop_zero]
  | cons p rest ih =>
      intro b hne hb
      have hp : p ≠ [] := hne p (by simp)
      have hrest : ∀ l ∈ rest, l ≠ [] := fun l hl => hne l (by simp [hl])
      have hlen : (addLogSegments b p).length ≤ 500 := addLogSegments_length_le b p hb
      calc (p :: rest).foldl addLogSegments b
          = rest.foldl addLogSegments (addLogSegments b p) := by
            rw [List.foldl_cons]
        _ = ((addLogSegments b p) ++ rest).drop
              (((addLogSegments b p) ++ rest).length - 500) := ih _ hrest hlen
        _ = (b ++ p :: rest).drop ((b ++ p :: rest).length - 500) :=
            addLogSegments_drop_eq b p rest hp hb

/-- **C5.** For every sequence of appended lines, the log buffer's size
never exceeds `N = 500`; and after appending more than 500 lines, all of
which parse non-empty, the buffer contains exactly the 500 most recently
appended (parsed) lines in order — eviction is strict FIFO from the
front. -/
theorem logBuffer_bounded_fifo (ms : List String) :
    (ms.foldl addLog []).length ≤ 500 ∧
    ((∀ m ∈ ms, parseLine m ≠ []) → 500 < ms.length →
      ms.foldl addLog [] = (ms.map parseLine).drop (ms.length - 500)) := by
  have hfold : ms.foldl addLog ([] : List (List AnsiSegment))
      = (ms.map parseLine).foldl addLogSegments [] := by
    rw [List.foldl_map]
    rfl
  constructor
  · rw [hfold]
    exact foldl_addLogSegments_length _ _ (by simp)
  · intro hne _
    rw [hfold, foldl_addLogSegments_eq _ _
      (fun l hl => by
        obtain ⟨m, hm, rfl⟩ := List.mem_map.mp hl
        exact hne m hm)
      (by simp)]
    simp

/-- Witness for C5: appending 501 copies of a plain line from the empty
buffer keeps the size within 500 and leaves the trailing 500 parsed
lines. -/
theorem logBuffer_bounded_fifo_witness :
    ((List.replicate 501 ("a")).foldl addLog []).length ≤ 500 ∧
    (List.replicate 501 ("a")).foldl addLog []
      = ((List.replicate 501 ("a")).map parseLine).drop (501 - 500) := by
  have h := logBuffer_bounded_fifo (List.replicate 501 ("a"))
  refine ⟨h.1, ?_⟩
  have h2 := h.2 (fun m hm => by
      have := List.eq_of_mem_replicate hm
      subst this
      decide)
    (by simp)
  simpa using h2

/-- **C6.** The color-sequence parser never returns a segment with empty
text, for any sequence of tokenizer blocks — in particular consecutive
control sequences with no intervening text produce no empty segments. -/
theorem colorParser_no_empty_segments (blocks : List AnsiBlock) (seg : AnsiSegment)
    (h : seg ∈ processBlocks blocks) : seg.text ≠ "" := by
  have h' : seg ∈ List.filter (fun s => !(s.text == ""))
      ((flushText (blocks.foldl stepBlock ([], none, ""))).1) := h
  have hp := List.of_mem_filter h'
  simpa using hp

/-- Witness for C6: three consecutive SGR sequences followed by text yield
the single non-empty segment. -/
theorem colorParser_no_empty_segments_witness :
    (⟨"ERROR", some (ansi_to_iced_color 31)⟩ : AnsiSegment)
      ∈ processBlocks [.sgr [31], .sgr [0], .sgr [31], .textBlock ("ERROR")] ∧
    ("ERROR" : String) ≠ "" := by
  constructor
  · decide
  · exact colorParser_no_empty_segments
      [.sgr [31], .sgr [0], .sgr [31], .textBlock ("ERROR")]
      ⟨"ERROR", some (ansi_to_iced_color 31)⟩ (by decide)

/-- **C7.** The line `"\x1b[31mERROR\x1b[0m: failed"` parses to exactly two
segments: `"ERROR"` in the palette color mapped from SGR code 31, then
`": failed"` with the default (no) color. -/
theorem parse_red_error_line :
    parseLine ("\x1b[31mERROR\x1b[0m: failed") =
      [⟨"ERROR", some (ansi_to_iced_color 31)⟩, ⟨": failed", none⟩] := by
  decide

/-- **C9.** A line parsing to zero segments, added while the buffer holds
exactly 500 lines, still evicts the oldest line: the buffer shrinks to 499
lines with nothing appended. -/
theorem addLog_empty_parse_still_evicts (logs : List (List AnsiSegment)) (m : String)
    (h1 : logs.length = 500) (h2 : parseLine m = []) :
    addLog logs m = logs.tail ∧ (addLog logs m).length = 499 := by
  have e : addLog logs m = logs.tail := by
    simp [addLog, addLogSegments, MAX_LOG_LINES, h2, h1]
  refine ⟨e, ?_⟩
  rw [e]
  simp [List.length_tail, h1]

/-- Witness for C9: a full 500-line buffer plus the escape-only line
`"\x1b[31m"` shrinks to its tail of 499 lines. -/
theorem addLog_empty_parse_still_evicts_witness :
    sampleFullBuffer.length = 500 ∧ parseLine ("\x1b[31m") = [] ∧
    addLog sampleFullBuffer ("\x1b[31m") = sampleFullBuffer.tail ∧
    (addLog sampleFullBuffer ("\x1b[31m")).length = 499 := by
  have h := addLog_empty_parse_still_evicts sampleFullBuffer ("\x1b[31m")
    (by simp [sampleFullBuffer]) (by decide)
  exact ⟨by simp [sampleFullBuffer], by decide, h.1, h.2⟩

/-- **C10.** A Stop intent while `actual_pid` is `None` (e.g. while a launch
is still in flight) sets `is_running` to false and clears the subscription
id without issuing any command — in particular no termination request. -/
theorem stop_without_pid_no_kill (s : Launcher) (h : s.actual_pid = none) :
    (update s .StopButtonPressed).1.is_running = false ∧
    (update s .StopButtonPressed).1.subscription_id = none ∧
    (update s .StopButtonPressed).2 = [] := by
  simp [update, h]

/-- Witness for C10: the freshly loaded launcher (no PID yet) stopped. -/
theorem stop_without_pid_no_kill_witness :
    stateAfterLoad.actual_pid = none ∧
    (update stateAfterLoad .StopButtonPressed).1.is_running = false ∧
    (update stateAfterLoad .StopButtonPressed).1.subscription_id = none ∧
    (update stateAfterLoad .StopButtonPressed).2 = [] := by
  have h := stop_without_pid_no_kill stateAfterLoad (by decide)
  exact ⟨by decide, h.1, h.2.1, h.2.2⟩

/-- **C8.** A close-request while a child with a known PID is running issues
exactly one termination request for that PID, latches `close_requested`, and
does not close the window in the same update; the close command is issued
once the termination attempt's outcome (kill result, termination, or process
error) is observed. -/
theorem close_request_defers_exit (s : Launcher) (pid : Nat)
    (h1 : s.is_running = true) (h2 : s.actual_pid = some pid) :
    (update s (.EventOccurred (.closeRequested true))).2 = [.killProcess pid] ∧
    LauncherCommand.closeWindow ∉ (update s (.EventOccurred (.closeRequested true))).2 ∧
    (update s (.EventOccurred (.closeRequested true))).1.close_requested = true ∧
    (∀ res, (update (update s (.EventOccurred (.closeRequested true))).1
        (.ProcessKillResult res)).2 = [.closeWindow]) ∧
    (∀ code, (update (update s (.EventOccurred (.closeRequested true))).1
        (.ProcessTerminated code)).2 = [.closeWindow]) ∧
    (∀ msg, (update (update s (.EventOccurred (.closeRequested true))).1
        (.ProcessError msg)).2 = [.closeWindow]) := by
  refine ⟨?_, ?_, ?_, ?_, ?_, ?_⟩ <;> simp [update, h1, h2]

/-- Witness for C8: close-request in the Running state with PID 900. -/
theorem close_request_defers_exit_witness :
    stateAfterPid.is_running = true ∧ stateAfterPid.actual_pid = some 900 ∧
    (update stateAfterPid (.EventOccurred (.closeRequested true))).2
      = [.killProcess 900] ∧
    (∀ res, (update (update stateAfterPid (.EventOccurred (.closeRequested true))).1
        (.ProcessKillResult res)).2 = [.closeWindow]) := by
  have h := close_request_defers_exit stateAfterPid 900 (by decide) (by decide)
  exact ⟨by decide, by decide, h.1, h.2.2.2.1⟩

/-- Counterexample to C1: in the Idle state loaded with a persisted stale
`last_pid = 4242`, the Start intent issues no command at all — in particular
no termination request for PID 4242 — and directly activates the launch
subscription (there is no AwaitingStaleKill detour anywhere in the code). -/
theorem start_ignores_stale_pid_cex :
    stateAfterLoad.is_running = false ∧
    stateAfterLoad.settings.last_pid = some 4242 ∧
    (update stateAfterLoad .StartButtonPressed).2 = [] ∧
    (update stateAfterLoad .StartButtonPressed).1.is_running = true ∧
    (update stateAfterLoad .StartButtonPressed).1.subscription_id = some 0 := by
  decide

/-- **C1 (amended).** A Start intent while not running with a configured
path and key issues no commands whatsoever — the persisted `last_pid` is
never consulted and no stale-PID termination is requested — and immediately
activates the launch subscription, leaving the settings untouched. -/
theorem start_spawns_without_stale_kill (s : Launcher)
    (h1 : s.is_running = false)
    (h2 : s.settings.executable_path.isSome = true)
    (h3 : s.settings.api_key ≠ "") :
    (update s .StartButtonPressed).2 = [] ∧
    (update s .StartButtonPressed).1.is_running = true ∧
    (update s .StartButtonPressed).1.subscription_id = some s.subscription_id_counter ∧
    (update s .StartButtonPressed).1.settings = s.settings := by
  have h3' : (s.settings.api_key == "") = false := by simpa using h3
  simp [update, h1, h2, h3']

/-- Witness for C1 (amended): Start on the loaded Idle state. -/
theorem start_spawns_without_stale_kill_witness :
    stateAfterLoad.is_running = false ∧
    stateAfterLoad.settings.executable_path.isSome = true ∧
    stateAfterLoad.settings.api_key ≠ "" ∧
    (update stateAfterLoad .StartButtonPressed).2 = [] ∧
    (update stateAfterLoad .StartButtonPressed).1.is_running = true := by
  have h := start_spawns_without_stale_kill stateAfterLoad
    (by decide) (by decide) (by decide)
  exact ⟨by decide, by decide, by decide, h.1, h.2.1⟩

/-- Counterexample to C2: acquiring PID 900 and (later) clearing it on
termination issue no command at all — in particular no settings write — so
the persisted record keeps its stale `last_pid = 4242` instead of mirroring
`current_pid`. -/
theorem pid_transitions_unpersisted_cex :
    (update stateAfterStart (.ProcessActualPid 900)).1.actual_pid = some 900 ∧
    (update stateAfterStart (.ProcessActualPid 900)).2 = [] ∧
    (update stateAfterStart (.ProcessActualPid 900)).1.settings.last_pid = some 4242 ∧
    (update stateAfterPid (.ProcessTerminated 0)).1.actual_pid = none ∧
    (update stateAfterPid (.ProcessTerminated 0)).2 = [] := by
  decide

/-- **C2 (amended).** Settings are written only on configuration changes
(executable path selection, API key edit); the transitions that acquire or
clear the child PID never issue a settings write and never touch the
settings record (whose `last_pid` field the update logic ignores
entirely). -/
theorem settings_saved_only_on_config_change (s : Launcher) (pid : Nat) (code : Int)
    (msg : String) (res : Except String Unit) (key : String) :
    ((update s (.ProcessActualPid pid)).2.all (fun c => !(isSaveCmd c))) = true ∧
    ((update s (.ProcessTerminated code)).2.all (fun c => !(isSaveCmd c))) = true ∧
    ((update s (.ProcessError msg)).2.all (fun c => !(isSaveCmd c))) = true ∧
    ((update s (.ProcessKillResult res)).2.all (fun c => !(isSaveCmd c))) = true ∧
    ((update s .StopButtonPressed).2.all (fun c => !(isSaveCmd c))) = true ∧
    (update s (.ProcessActualPid pid)).1.settings = s.settings ∧
    (update s (.ProcessTerminated code)).1.settings = s.settings ∧
    (update s (.ApiKeyChanged key)).2
      = [.saveSettings { s.settings with api_key := key }] := by
  refine ⟨?_, ?_, ?_, ?_, ?_, ?_, ?_, ?_⟩
  · simp [update, isSaveCmd]
  · cases hc : s.close_requested <;> simp [update, isSaveCmd, hc]
  · cases hc : s.close_requested <;> simp [update, isSaveCmd, hc]
  · cases hc : s.close_requested <;> simp [update, isSaveCmd, hc]
  · cases hp : s.actual_pid <;> simp [update, isSaveCmd, hp]
  · simp [update]
  · simp [update]
  · simp [update]

/-- Counterexample to C4: against an already-exited target the `kill` /
`taskkill` command exits with a nonzero status ("No such process" /
"not found"), and `kill_process` then reports failure, not success, on both
platforms. -/
theorem kill_already_exited_fails_cex :
    exceptIsOk (kill_process_unix 4242 staleKillOutcomeUnix) = false ∧
    exceptIsOk (kill_process_windows 4242 staleKillOutcomeWindows) = false := by
  decide

/-- **C4 (amended).** `kill_process` succeeds exactly when the spawned
`kill`/`taskkill` command ran and exited with a success status (on Windows
regardless of whether stdout confirms the kill), and fails when the command
could not be run or exited nonzero — which is what an already-exited target
produces. -/
theorem kill_result_mirrors_command_status (pid : Nat) (out : CmdOutput) (e : String) :
    exceptIsOk (kill_process_unix pid (.ok out)) = out.success ∧
    exceptIsOk (kill_process_windows pid (.ok out)) = out.success ∧
    exceptIsOk (kill_process_unix pid (.error e)) = false ∧
    exceptIsOk (kill_process_windows pid (.error e)) = false := by
  refine ⟨?_, ?_, ?_, ?_⟩ <;>
    cases hsucc : out.success <;>
      simp [kill_process_unix, kill_process_windows, exceptIsOk, hsucc]

/-- Counterexample to C3: the state reached by loading settings and pressing
Start is in the Launching phase (running flag set, launch subscription 0
active) yet `actual_pid` is `None` — the PID only becomes `Some` when the
subscription later reports it, so "`current_pid` is `Some` iff lifecycle ∈
{Launching, Running, Stopping}" fails in Launching. -/
theorem pid_iff_lifecycle_cex :
    Reachable stateAfterStart ∧
    stateAfterStart.is_running = true ∧
    stateAfterStart.subscription_id = some 0 ∧
    stateAfterStart.actual_pid = none := by
  refine ⟨?_, by decide, by decide, by decide⟩
  have h1 : Reachable stateAfterLoad :=
    Reachable.step Reachable.init trivial
  exact Reachable.step h1 trivial

/-- **C3 (amended).** In every reachable state — with the process-stream
messages delivered only while the launch subscription is alive, as the iced
runtime guarantees — `actual_pid` is `Some` only if `is_running` is true.
The converse direction of the original claim fails in the Launching phase
(see the counterexample). -/
theorem pid_some_implies_running (s : Launcher) (h : Reachable s) :
    s.actual_pid.isSome = true → s.is_running = true := by
  induction h with
  | init =>
      intro hp
      simp [initState] at hp
  | @step s m hr hd ih =>
      cases m with
      | SettingsButtonPressed =>
          intro hp
          simp [update] at hp ⊢
          exact ih hp
      | CloseSettingsPressed =>
          intro hp
          simp [update] at hp ⊢
          exact ih hp
      | SelectExecutablePath =>
          intro hp
          simp [update] at hp ⊢
          exact ih hp
      | ProcessOutput line =>
          intro hp
          simp [update] at hp ⊢
          exact ih hp
      | ApiKeyChanged key =>
          intro hp
          simp [update] at hp ⊢
          exact ih hp
      | SettingsLoaded res =>
          cases res with
          | ok loaded =>
              intro hp
              simp [update] at hp ⊢
              exact ih hp
          | error e =>
              intro hp
              simp [update] at hp ⊢
              exact ih hp
      | SettingsSaved res =>
          cases res with
          | ok u =>
              intro hp
              simp [update] at hp ⊢
              exact ih hp
          | error e =>
              intro hp
              simp [update] at hp ⊢
              exact ih hp
      | ExecutablePathSelected res =>
          cases res with
          | ok opt =>
              cases opt with
              | some path =>
                  intro hp
                  simp [update] at hp ⊢
                  exact ih hp
              | none =>
                  intro hp
                  simp [update] at hp ⊢
                  exact ih hp
          | error e =>
              intro hp
              simp [update] at hp ⊢
              exact ih hp
      | StartButtonPressed =>
          by_cases hr1 : s.is_running
          · intro _
            simp [update, hr1]
          · by_cases hv : (s.settings.executable_path.isSome
                && !(s.settings.api_key == "")) = true
            · intro hp
              simp [update, hr1, hv] at hp
            · intro hp
              simp [update, hr1, hv] at hp ⊢
              exact hr1 (ih hp)
      | StopButtonPressed =>
          cases hpd : s.actual_pid with
          | some pid =>
              intro hp
              simp [update, hpd] at hp
          | none =>
              intro hp
              simp [update, hpd] at hp
      | ProcessActualPid pid =>
          intro _
          obtain ⟨hrun, -⟩ := hd
          simp [update]
          exact hrun
      | ProcessTerminated code =>
          intro hp
          simp [update] at hp
      | ProcessError msg =>
          intro hp
          simp [update] at hp
      | ProcessKillResult res =>
          intro hp
          simp [update] at hp
      | EventOccurred ev =>
          cases ev with
          | other =>
              intro hp
              simp [update] at hp ⊢
              exact ih hp
          | closeRequested isMain =>
              cases isMain with
              | false =>
                  intro hp
                  simp [update] at hp ⊢
                  exact ih hp
              | true =>
                  by_cases hr1 : s.is_running
                  · cases hpd : s.actual_pid with
                    | some pid =>
                        intro _
                        simp [update, hr1, hpd]
                    | none =>
                        intro hp
                        simp [update, hr1, hpd] at hp
                  · intro hp
                    simp [update, hr1] at hp ⊢
                    exact hr1 (ih hp)

/-- Witness for C3 (amended): in the reachable Running state with PID 900,
the invariant yields `is_running = true`. -/
theorem pid_some_implies_running_witness :
    stateAfterPid.actual_pid.isSome = true ∧ stateAfterPid.is_running = true := by
  have h1 : Reachable stateAfterLoad :=
    Reachable.step Reachable.init trivial
  have h2 : Reachable stateAfterStart :=
    Reachable.step h1 trivial
  have h3 : Reachable stateAfterPid :=
    Reachable.step h2 (by constructor <;> decide)
  exact ⟨by decide, pid_some_implies_running stateAfterPid h3 (by decide)⟩

end TradingStar
